import Mathlib

/-!
# Verification of the JPL Horizons element-extraction script

A shallow embedding of `scripts/fetch_jpl_api.py`, centred on
`JPLHorizonsAPI.parse_horizons_output` (the Element Extractor) and the
record-assembly / classification / clustering-summary logic of `main`.

Python text is modelled as `List Char` (Python string indices are
code-point indices, matching list positions).  Python floats produced by
`float(...)` on the decimal strings this program feeds it are modelled
exactly as decimal numbers `Dec` (an integer mantissa scaled by a power of
ten); `Dec.toRat` interprets them in `ℚ` and correctness lemmas connect
the executable `Dec` operations to rational arithmetic.  Infinities, NaN
and digit-group underscores accepted by Python `float` are outside the
model, as are non-ASCII digits and whitespace.
-/

/-! ## String utilities (Python `str` operations) -/

/-- ASCII whitespace, the characters Python `str.strip` and the regex
class `\s` treat as space (restricted to ASCII). -/
def isWs (c : Char) : Bool :=
  c == ' ' || c == '\t' || c == '\n' || c == '\r' || c == '\x0b' || c == '\x0c'

/-- Python `str.strip()`: drop leading and trailing whitespace. -/
def stripWs (s : List Char) : List Char :=
  ((s.dropWhile isWs).reverse.dropWhile isWs).reverse

/-- Python `str.split(sep)` for a one-character separator: keeps empty
pieces, `split` of the empty string is `[""]`. -/
def splitOnChar (c : Char) : List Char → List (List Char)
  | [] => [[]]
  | x :: xs =>
    let r := splitOnChar c xs
    if x == c then [] :: r
    else
      match r with
      | [] => [[x]]
      | h :: t => (x :: h) :: t

/-- Does `pat` occur at the very start of `s`? -/
def leadsWith : List Char → List Char → Bool
  | [], _ => true
  | _ :: _, [] => false
  | p :: ps, x :: xs => p == x && leadsWith ps xs

/-- Python `str.find`: index of the first occurrence of `pat` in `s`
(`none` models Python's `-1`; every use below is guarded by an `in`
check, as in the source). -/
def findSub (pat : List Char) : List Char → Option Nat
  | [] => if pat.isEmpty then some 0 else none
  | x :: xs =>
    if leadsWith pat (x :: xs) then some 0
    else (findSub pat xs).map (· + 1)

/-- Python `pat in s` substring test. -/
def containsSub (pat s : List Char) : Bool :=
  (findSub pat s).isSome

/-- Python slice `s[a:b]` (for `0 ≤ a`, `0 ≤ b`; out-of-range indices
clamp, and `a > b` yields the empty string, as in Python). -/
def sliceFrom (s : List Char) (a b : Nat) : List Char :=
  (s.take b).drop a

/-! ## Exact decimal numbers (the Python floats this program produces) -/

/-- `10 ^ n` as an integer, by structural recursion (kernel-reducible). -/
def tenPow : Nat → Int
  | 0 => 1
  | n + 1 => 10 * tenPow n

/-- An exact decimal number `m / 10 ^ e`.  Every float the script
manipulates comes from `float(...)` on a decimal string or from the
literals `0`, `30`, `360`, so decimals model the values exactly. -/
structure Dec where
  m : Int
  e : Nat
deriving DecidableEq

/-- The rational value of a decimal. -/
def Dec.toRat (d : Dec) : ℚ := (d.m : ℚ) / 10 ^ d.e

/-- Python `a < b` on (exact decimal) floats, by cross-multiplication. -/
def Dec.blt (a b : Dec) : Bool :=
  a.m * tenPow b.e < b.m * tenPow a.e

/-- Python `a + b` on exact decimals. -/
def Dec.add (a b : Dec) : Dec :=
  ⟨a.m * tenPow b.e + b.m * tenPow a.e, a.e + b.e⟩

/-- Python `a % n` for a float `a` and positive integer literal `n`:
`a - n * floor(a / n)`, where `floor(a / n) = a.m / (n * 10 ^ a.e)`
using integer floor division (Lean's `Int` division is Euclidean, which
agrees with floor division for a positive divisor). -/
def Dec.pymodInt (a : Dec) (n : Int) : Dec :=
  ⟨a.m - n * (a.m / (n * tenPow a.e)) * tenPow a.e, a.e⟩

/-! ## `float(...)` on the strings this script extracts

Models the decimal core of Python `float`: optional surrounding
whitespace, an optional sign, a digit string with at most one point (at
least one digit overall), and an optional `e`/`E` exponent. -/

/-- Numeric value of a digit string. -/
def digitsToNat (ds : List Char) : Nat :=
  ds.foldl (fun a c => 10 * a + (c.toNat - '0'.toNat)) 0

/-- Parse the exponent suffix: empty means exponent `0`; otherwise
`e`/`E`, an optional sign and a nonempty digit string ending the input. -/
def parseExp : List Char → Option Int
  | [] => some 0
  | c :: r =>
    if c == 'e' || c == 'E' then
      let sgr : Int × List Char :=
        match r with
        | '+' :: t => (1, t)
        | '-' :: t => (-1, t)
        | t => (1, t)
      let ds := sgr.2.takeWhile Char.isDigit
      let rest := sgr.2.dropWhile Char.isDigit
      if ds.isEmpty || !rest.isEmpty then none
      else some (sgr.1 * (digitsToNat ds : Int))
    else none

/-- Python `float(s)` on a decimal string, as an exact decimal;
`none` models a raised `ValueError`. -/
def parseFloat (s0 : List Char) : Option Dec :=
  let s := stripWs s0
  let sg : Int × List Char :=
    match s with
    | '+' :: r => (1, r)
    | '-' :: r => (-1, r)
    | r => (1, r)
  let ip := sg.2.takeWhile Char.isDigit
  let r1 := sg.2.dropWhile Char.isDigit
  let fpr : List Char × List Char :=
    match r1 with
    | '.' :: rest => (rest.takeWhile Char.isDigit, rest.dropWhile Char.isDigit)
    | _ => ([], r1)
  if ip.isEmpty && fpr.1.isEmpty then none
  else
    match parseExp fpr.2 with
    | none => none
    | some ex =>
      let m0 : Int := sg.1 * (digitsToNat (ip ++ fpr.1) : Int)
      if 0 ≤ ex then some ⟨m0 * tenPow ex.toNat, fpr.1.length⟩
      else some ⟨m0, fpr.1.length + (-ex).toNat⟩

example : parseFloat "0.25".data = some ⟨25, 2⟩ := by decide
example : parseFloat "30.1".data = some ⟨301, 1⟩ := by decide
example : parseFloat "1000".data = some ⟨1000, 0⟩ := by decide
example : parseFloat "-1.5e-2".data = some ⟨-15, 3⟩ := by decide
example : parseFloat "2E3".data = some ⟨2000, 0⟩ := by decide
example : parseFloat "...".data = none := by decide
example : parseFloat "".data = none := by decide
example : parseFloat "1-2".data = none := by decide
example : parseFloat " 5. ".data = some ⟨5, 0⟩ := by decide
example : parseFloat ".5".data = some ⟨5, 1⟩ := by decide

/-! ## The element mapping

A Python dict from element name to float-or-`None`, in insertion order:
`some d` is a float value, `none` is Python `None`. -/

/-- The `elements` dict of `parse_horizons_output`. -/
abbrev Elements : Type := List (String × Option Dec)

/-- Python `d[k]` / presence test on the dict: value of the first entry
with key `k`. -/
def elemLookup (k : String) : Elements → Option (Option Dec)
  | [] => none
  | (k', v) :: rest => if k' == k then some v else elemLookup k rest

/-- Python `d.get(k, default)` where `default` is a numeric literal, for
keys whose stored value is never `None` (the script only applies it to
such keys; on a `None` value Python itself would raise `TypeError` in
the comparisons that follow, which is unreachable, see
`parse_none_only_orbital_period`). -/
def getFloatD (e : Elements) (k : String) (d : Dec) : Dec :=
  match elemLookup k e with
  | some (some v) => v
  | _ => d

/-! ## Step 2: the tabular strategy -/

/-- A positional field of the data row: Python
`float(parts[i]) if parts[i] else 0` — empty string becomes `0`,
otherwise a failed `float` raises (aborting the whole dict literal). -/
def fieldZero (s : List Char) : Option Dec :=
  if s.isEmpty then some ⟨0, 0⟩ else parseFloat s

/-- The orbital-period field: Python
`float(parts[11]) if parts[11] else None` — empty string becomes `None`. -/
def fieldNull (s : List Char) : Option (Option Dec) :=
  if s.isEmpty then some none else (parseFloat s).map some

/-- `float(parts[i]) if parts[i] else 0` — `none` if the access raises
`IndexError` or the conversion raises `ValueError`. -/
def fz (parts : List (List Char)) (i : Nat) : Option Dec :=
  (parts.get? i).bind fieldZero

/-- `float(parts[11]) if parts[11] else None`, `none` on `IndexError` or
`ValueError` (the inner `some`/`none` being the float-or-`None` value). -/
def fnull (parts : List (List Char)) (i : Nat) : Option (Option Dec) :=
  (parts.get? i).bind fieldNull

/-- The dict literal of the `try` block, over the comma-split,
whitespace-trimmed fields of one data row.  Python evaluates every entry
before assigning, so a `ValueError` on any field or the `IndexError` on
`parts[11]` aborts the whole assignment: the `none` result models the
caught exception, in which case `elements` is left untouched. -/
def parseRow (parts : List (List Char)) : Option Elements :=
  match fz parts 0, fz parts 1, fz parts 2, fz parts 3, fz parts 4,
        fz parts 7, fz parts 9, fz parts 10, fnull parts 11 with
  | some ec, some qr, some inc, some om, some w, some ma, some ax, some ad, some pr =>
    some [("eccentricity", some ec), ("perihelion", some qr), ("inclination", some inc),
          ("longitude_ascending_node", some om), ("argument_perihelion", some w),
          ("mean_anomaly", some ma), ("semimajor_axis", some ax),
          ("aphelion", some ad), ("orbital_period", pr)]
  | _, _, _, _, _, _, _, _, _ => none

/-- One iteration of the line loop: a line qualifies if it contains a
comma and a digit; it is split on commas, each field trimmed (the
source's `parts` local is inlined), and if at least 11 fields are
present the dict literal is attempted — a success replaces `elements`
wholesale, a failure is silently skipped (`except ... pass`). -/
def tabStep (acc : Elements) (line : List Char) : Elements :=
  if line.contains ',' && line.any Char.isDigit then
    if 11 ≤ ((splitOnChar ',' line).map stripWs).length then
      match parseRow ((splitOnChar ',' line).map stripWs) with
      | some e => e
      | none => acc
    else acc
  else acc

/-- The line loop of the tabular strategy; since each success replaces
the dict wholesale, the last successful row wins. -/
def tabularScan (lines : List (List Char)) : Elements :=
  lines.foldl tabStep []

/-- The `"$$SOE"`/`"$$EOE"` sentinels. -/
def soeMark : List Char := "$$SOE".data

def eoeMark : List Char := "$$EOE".data

/-- The whole tabular step: only entered when both sentinel markers are
present; the text strictly between `find("$$SOE") + 5` and
`find("$$EOE")` is stripped and split into lines. -/
def tabularPart (text : List Char) : Elements :=
  if containsSub soeMark text && containsSub eoeMark text then
    let start := (findSub soeMark text).getD text.length + 5
    let stop := (findSub eoeMark text).getD text.length
    tabularScan (splitOnChar '\n' (stripWs (sliceFrom text start stop)))
  else []

example : parseRow ((splitOnChar ',' "0.25, 30.1,10.5,100.2,200.3,0,0,15.0,0,400.0,500.0,1000".data).map stripWs) =
    some [("eccentricity", some ⟨25, 2⟩), ("perihelion", some ⟨301, 1⟩),
          ("inclination", some ⟨105, 1⟩), ("longitude_ascending_node", some ⟨1002, 1⟩),
          ("argument_perihelion", some ⟨2003, 1⟩), ("mean_anomaly", some ⟨150, 1⟩),
          ("semimajor_axis", some ⟨4000, 1⟩), ("aphelion", some ⟨5000, 1⟩),
          ("orbital_period", some ⟨1000, 0⟩)] := by decide

example : parseRow ((splitOnChar ',' "1,2,3,4,5,6,7,8,9,10,11".data).map stripWs) = none := by
  decide

/-! ## Step 3: the fallback pattern strategy

Each pattern in the source is `key\s*=\s*([\d.+-]+)` (or an alternation
of two such patterns), searched with `re.search(..., re.IGNORECASE)`.
Because `\s` matches no `=` and no value character, and the value class
matches no whitespace, the greedy quantifiers never backtrack: a match
at a position is exactly "the key case-insensitively, a maximal
whitespace run, `=`, a maximal whitespace run, then a nonempty maximal
run of `[0-9.+-]`", and `re.search` returns the leftmost position
(trying the alternatives of an alternation left to right at each
position). -/

/-- The regex character class `[\d.+-]` (ASCII digits). -/
def isValChar (c : Char) : Bool :=
  c.isDigit || c == '.' || c == '+' || c == '-'

/-- Case-insensitively consume the literal `key` at the start of `s`,
returning the rest. -/
def dropKeyCI : List Char → List Char → Option (List Char)
  | [], s => some s
  | _ :: _, [] => none
  | k :: ks, c :: cs => if k.toLower == c.toLower then dropKeyCI ks cs else none

/-- Match `key\s*=\s*([\d.+-]+)` anchored at the start of `s`, returning
the captured group. -/
def matchKeyAt (key : List Char) (s : List Char) : Option (List Char) :=
  match dropKeyCI key s with
  | none => none
  | some s1 =>
    match s1.dropWhile isWs with
    | '=' :: s3 =>
      let v := (s3.dropWhile isWs).takeWhile isValChar
      if v.isEmpty then none else some v
    | _ => none

/-- `re.search`: try the position matcher `f` at each position of the
text, left to right. -/
def searchAt (f : List Char → Option (List Char)) : List Char → Option (List Char)
  | [] => f []
  | x :: xs =>
    match f (x :: xs) with
    | some v => some v
    | none => searchAt f xs

/-- Search for a single `key\s*=\s*([\d.+-]+)` pattern. -/
def searchKey (key : List Char) (text : List Char) : Option (List Char) :=
  searchAt (matchKeyAt key) text

/-- Search for an alternation `k1\s*=\s*(...)|k2\s*=\s*(...)`; the value
is group 1 if the first alternative matched, group 2 otherwise. -/
def searchAlt (k1 k2 : List Char) (text : List Char) : Option (List Char) :=
  searchAt
    (fun s =>
      match matchKeyAt k1 s with
      | some v => some v
      | none => matchKeyAt k2 s)
    text

/-- The contribution of one pattern to the fallback dict:
`elements[key] = float(value)` when the pattern matched and the
conversion succeeds, nothing otherwise (`except ValueError: pass`). -/
def segOf (key : String) (r : Option (List Char)) : Elements :=
  match r with
  | none => []
  | some v =>
    match parseFloat v with
    | some d => [(key, some d)]
    | none => []

/-- The whole fallback strategy: the eight patterns of the source in its
dict order, each contributing at most one entry. -/
def fallbackScan (text : List Char) : Elements :=
  segOf "semimajor_axis" (searchKey "a".data text) ++
  (segOf "eccentricity" (searchKey "e".data text) ++
  (segOf "inclination" (searchKey "i".data text) ++
  (segOf "longitude_ascending_node" (searchAlt "node".data "Omega".data text) ++
  (segOf "argument_perihelion" (searchAlt "peri".data "w".data text) ++
  (segOf "mean_anomaly" (searchKey "M".data text) ++
  (segOf "perihelion" (searchKey "q".data text) ++
  segOf "aphelion" (searchKey "Q".data text)))))))

/-! ## The Element Extractor -/

/-- The first "object not recognized" sentinel. -/
def notFound1 : List Char := "No matches found".data

/-- The second "object not recognized" sentinel. -/
def notFound2 : List Char := "Cannot find".data

/-- The final value of the `elements` local: the tabular result, or the
fallback result when the tabular strategy produced nothing (an empty
dict is falsy). -/
def chosenElements (text : List Char) : Elements :=
  if (tabularPart text).isEmpty then fallbackScan text else tabularPart text

/-- `JPLHorizonsAPI.parse_horizons_output`: sentinel check, tabular
strategy, fallback strategy if the tabular one produced nothing, and
`None` (modelled `none`) instead of an empty dict. -/
def parse_horizons_output (text : List Char) : Option Elements :=
  if containsSub notFound1 text || containsSub notFound2 text then none
  else if (chosenElements text).isEmpty then none
  else some (chosenElements text)

example : fallbackScan "e = 0.85 and a = 450.3".data
    = [("semimajor_axis", some ⟨4503, 1⟩), ("eccentricity", some ⟨85, 2⟩)] := by decide

example : parse_horizons_output "nothing here".data = none := by decide

/-! ## `main`: record assembly, classification, identifier resolution,
clustering summary, output document -/

/-- A Python value as it appears in the records and the output document:
a string, a float, an element dict, a nested dict, or a list. -/
inductive PyVal where
  | str : String → PyVal
  | num : Dec → PyVal
  | elems : Elements → PyVal
  | obj : List (String × PyVal) → PyVal
  | list : List PyVal → PyVal

/-- A Python dict used as a record. -/
abbrev PyRec : Type := List (String × PyVal)

/-- `d[k]` / `d.get(k)` on a record. -/
def lookupRec (k : String) : PyRec → Option PyVal
  | [] => none
  | (k', v) :: r => if k' == k then some v else lookupRec k r

/-- `"extreme_tno" if elements.get('perihelion', 0) > 30 else "tno"`. -/
def tnoType (e : Elements) : String :=
  if Dec.blt ⟨30, 0⟩ (getFloatD e "perihelion" ⟨0, 0⟩) then "extreme_tno" else "tno"

/-- The planet record appended by `main` on a successful fetch. -/
def mkPlanetRecord (name id : String) (mass : Dec) (e : Elements) : PyRec :=
  [("name", .str name), ("id", .str id), ("mass", .num mass),
   ("orbital_elements", .elems e)]

/-- The TNO record appended by `main` on a successful fetch. -/
def mkTNORecord (name designation : String) (e : Elements) : PyRec :=
  [("name", .str name), ("designation", .str designation),
   ("type", .str (tnoType e)), ("orbital_elements", .elems e)]

/-- The two identifier formats tried for a TNO:
`[tno_info['id'], f"DES={tno_info['id']}"]`. -/
def idFormats (id : String) : List String := [id, "DES=" ++ id]

/-- The `for id_format in [...]` loop body: fetch each format in turn,
`break` on the first truthy result (a successful extraction is a
nonempty dict, hence truthy); the loop variable retains the last fetch
result, so all-failures yields the final `None`. -/
def tryFormats (fetch : String → Option Elements) : List String → Option Elements
  | [] => none
  | f :: fs =>
    match fetch f with
    | some e => some e
    | none => tryFormats fetch fs

/-- The identifiers actually passed to `fetch_elements` by the loop. -/
def triedFormats (fetch : String → Option Elements) : List String → List String
  | [] => []
  | f :: fs =>
    match fetch f with
    | some _ => [f]
    | none => f :: triedFormats fetch fs

/-- Resolution of one TNO identifier, abstracted over the fetch
collaborator (network plus Extractor). -/
def resolveTNO (fetch : String → Option Elements) (id : String) : Option Elements :=
  tryFormats fetch (idFormats id)

/-- The formats resolution actually attempts. -/
def resolveTried (fetch : String → Option Elements) (id : String) : List String :=
  triedFormats fetch (idFormats id)

/-- Assemble the TNO record from the resolved elements (nothing is
appended when both formats fail). -/
def assembleTNO (fetch : String → Option Elements) (name id designation : String) :
    Option PyRec :=
  (resolveTNO fetch id).map (mkTNORecord name designation)

/-- The filter predicate `t.get('type') == 'extreme_tno'` (a dict value
equals a string only when it is that string). -/
def isExtremeTag : Option PyVal → Bool
  | some (.str s) => s == "extreme_tno"
  | _ => false

/-- `tno['orbital_elements']`; every record `main` builds has the key,
so the default branch is unreachable for assembled records. -/
def recElems (t : PyRec) : Elements :=
  match lookupRec "orbital_elements" t with
  | some (.elems e) => e
  | _ => []

/-- `tno['name']`; ditto. -/
def recName (t : PyRec) : String :=
  match lookupRec "name" t with
  | some (.str s) => s
  | _ => ""

/-- The longitude of perihelion printed for each extreme TNO:
`(elem.get('longitude_ascending_node', 0) + elem.get('argument_perihelion', 0)) % 360`. -/
def lonPeri (e : Elements) : Dec :=
  Dec.pymodInt
    (Dec.add (getFloatD e "longitude_ascending_node" ⟨0, 0⟩)
             (getFloatD e "argument_perihelion" ⟨0, 0⟩))
    360

/-- The clustering report: one `(name, ϖ, q)` line per record whose
`type` tag is `extreme_tno`, in list order. -/
def clusterSummary (tnos : List PyRec) : List (String × Dec × Dec) :=
  (tnos.filter (fun t => isExtremeTag (lookupRec "type" t))).map
    (fun t => (recName t, lonPeri (recElems t),
               getFloatD (recElems t) "perihelion" ⟨0, 0⟩))

/-- The output document written to `data/solar_system_jpl.json`
(`version` and `fetch_date` come from the wall clock and are passed in). -/
def buildOutput (version fetchDate : String) (planets tnos : List PyRec) : PyRec :=
  [("metadata", .obj
      [("version", .str version),
       ("source", .str "JPL Horizons System"),
       ("url", .str "https://ssd.jpl.nasa.gov/horizons/"),
       ("fetch_date", .str fetchDate),
       ("epoch_jd", .num ⟨24602005, 1⟩),
       ("epoch_date", .str "2023-09-13 00:00:00 UTC"),
       ("units", .obj
         [("distance", .str "AU"), ("angle", .str "degrees"),
          ("mass", .str "solar_masses"), ("time", .str "days")])]),
   ("planets", .list (planets.map PyVal.obj)),
   ("etnos", .list (tnos.map PyVal.obj)),
   ("planet9_search_parameters", .obj
      [("mass_range", .list [.num ⟨5, 0⟩, .num ⟨10, 0⟩]),
       ("mass_unit", .str "earth_masses"),
       ("semimajor_axis_range", .list [.num ⟨400, 0⟩, .num ⟨800, 0⟩]),
       ("eccentricity_range", .list [.num ⟨2, 1⟩, .num ⟨5, 1⟩]),
       ("inclination_range", .list [.num ⟨15, 0⟩, .num ⟨30, 0⟩]),
       ("argument_perihelion_clustering", .obj
         [("center", .num ⟨318, 0⟩),
          ("spread", .num ⟨30, 0⟩),
          ("note", .str "Based on Batygin & Brown 2016 clustering analysis")]),
       ("references", .list
         [.str "Batygin, K. & Brown, M. E. (2016). Evidence for a Distant Giant Planet in the Solar System. AJ 151, 22.",
          .str "Trujillo, C. A. & Sheppard, S. S. (2014). A Sedna-like body with a perihelion of 80 AU. Nature 507, 471.",
          .str "Sheppard, S. S. et al. (2019). A New High Perihelion Trans-Plutonian Inner Oort Cloud Object. AJ 157, 139."])])]

/-- Python `%` as a function on rationals. -/
def pyModRat (x y : ℚ) : ℚ := x - y * ⌊x / y⌋

/-! ## Correctness of the decimal arithmetic w.r.t. `ℚ` -/

theorem tenPow_eq (n : Nat) : tenPow n = (10 : ℤ) ^ n := by
  induction n with
  | zero => rfl
  | succ k ih => rw [tenPow, ih, pow_succ]; ring

theorem tenPow_pos (n : Nat) : (0 : ℤ) < tenPow n := by
  rw [tenPow_eq]; positivity

/-- The executable comparison agrees with the rational order. -/
theorem Dec.blt_iff (a b : Dec) : a.blt b = true ↔ a.toRat < b.toRat := by
  unfold Dec.blt Dec.toRat
  rw [decide_eq_true_iff, div_lt_div_iff₀ (by positivity) (by positivity),
    tenPow_eq, tenPow_eq]
  constructor
  · intro h
    exact_mod_cast h
  · intro h
    exact_mod_cast h

/-- The executable addition agrees with rational addition. -/
theorem Dec.toRat_add (a b : Dec) : (a.add b).toRat = a.toRat + b.toRat := by
  unfold Dec.add Dec.toRat
  simp only [tenPow_eq]
  push_cast
  rw [pow_add]
  field_simp

/-- The value of `⟨m, e⟩`. -/
theorem Dec.toRat_mk (m : Int) (e : Nat) : Dec.toRat ⟨m, e⟩ = (m : ℚ) / 10 ^ e := rfl

/-- The executable modulus agrees with `x - y * ⌊x / y⌋` on rationals,
for a positive integer modulus. -/
theorem Dec.toRat_pymodInt (a : Dec) (n : Int) (hn : 0 < n) :
    (a.pymodInt n).toRat = pyModRat a.toRat (n : ℚ) := by
  have hDpos : (0 : ℤ) < n * tenPow a.e := mul_pos hn (tenPow_pos _)
  have hD : ((n * tenPow a.e).toNat : ℤ) = n * tenPow a.e :=
    Int.toNat_of_nonneg hDpos.le
  have hdiv : a.toRat / (n : ℚ) = (a.m : ℚ) / (((n * tenPow a.e).toNat : ℕ) : ℚ) := by
    rw [Dec.toRat, div_div]
    congr 1
    have : (((n * tenPow a.e).toNat : ℕ) : ℚ) = ((n * tenPow a.e : ℤ) : ℚ) := by
      exact_mod_cast congrArg (fun z : ℤ => (z : ℚ)) hD
    rw [this, tenPow_eq]
    push_cast
    ring
  have hfloor : ⌊a.toRat / (n : ℚ)⌋ = a.m / (n * tenPow a.e) := by
    rw [hdiv, Rat.floor_intCast_div_natCast, hD]
  unfold pyModRat
  rw [hfloor]
  unfold Dec.pymodInt Dec.toRat
  simp only [tenPow_eq]
  push_cast
  field_simp
  ring

/-! ## Lookup lemmas for the dict built by the fallback strategy -/

theorem elemLookup_append_none : ∀ {l1 : Elements} {k : String} {l2 : Elements},
    elemLookup k l1 = none → elemLookup k (l1 ++ l2) = elemLookup k l2
  | [], _, _, _ => rfl
  | (k', v) :: r, k, l2, h => by
    simp only [elemLookup, List.cons_append] at h ⊢
    by_cases hk : k' == k
    · rw [if_pos hk] at h
      exact absurd h (by simp)
    · rw [if_neg hk] at h ⊢
      exact elemLookup_append_none h

theorem elemLookup_append_some : ∀ {l1 : Elements} {k : String} {v : Option Dec}
    {l2 : Elements}, elemLookup k l1 = some v → elemLookup k (l1 ++ l2) = some v
  | [], _, _, _, h => absurd h (by simp [elemLookup])
  | (k', w) :: r, k, v, l2, h => by
    simp only [elemLookup, List.cons_append] at h ⊢
    by_cases hk : k' == k
    · rwa [if_pos hk] at h ⊢
    · rw [if_neg hk] at h ⊢
      exact elemLookup_append_some h

theorem elemLookup_segOf_ne (k k' : String) (h : (k' == k) = false)
    (r : Option (List Char)) : elemLookup k (segOf k' r) = none := by
  cases r with
  | none => rfl
  | some v =>
    cases hp : parseFloat v with
    | none => simp [segOf, hp, elemLookup]
    | some d => simp [segOf, hp, elemLookup, h]

theorem elemLookup_segOf_self (k : String) (r : Option (List Char)) :
    elemLookup k (segOf k r) = (r.bind parseFloat).map some := by
  cases r with
  | none => rfl
  | some v =>
    cases hp : parseFloat v with
    | none => simp [segOf, hp, elemLookup]
    | some d => simp [segOf, hp, elemLookup]

/-! ## What the fallback strategy stores under each key

For each of the eight element names, the entry in the fallback dict is
exactly the parsed value of its own pattern's match (absent when the
pattern did not match or its value failed to parse). -/

theorem fallback_lookup_semimajor_axis (t : List Char) :
    elemLookup "semimajor_axis" (fallbackScan t)
      = ((searchKey "a".data t).bind parseFloat).map some := by
  unfold fallbackScan
  cases hr : (searchKey "a".data t).bind parseFloat with
  | some d =>
    have hs : elemLookup "semimajor_axis" (segOf "semimajor_axis" (searchKey "a".data t)) = some (some d) := by
      rw [elemLookup_segOf_self, hr]
      rfl
    rw [elemLookup_append_some hs]
    rfl
  | none =>
    have hn : elemLookup "semimajor_axis" (segOf "semimajor_axis" (searchKey "a".data t)) = none := by
      rw [elemLookup_segOf_self, hr]
      rfl
    rw [elemLookup_append_none hn]
    rw [elemLookup_append_none (elemLookup_segOf_ne "semimajor_axis" "eccentricity" (by decide) _)]
    rw [elemLookup_append_none (elemLookup_segOf_ne "semimajor_axis" "inclination" (by decide) _)]
    rw [elemLookup_append_none (elemLookup_segOf_ne "semimajor_axis" "longitude_ascending_node" (by decide) _)]
    rw [elemLookup_append_none (elemLookup_segOf_ne "semimajor_axis" "argument_perihelion" (by decide) _)]
    rw [elemLookup_append_none (elemLookup_segOf_ne "semimajor_axis" "mean_anomaly" (by decide) _)]
    rw [elemLookup_append_none (elemLookup_segOf_ne "semimajor_axis" "perihelion" (by decide) _)]
    rw [elemLookup_segOf_ne "semimajor_axis" "aphelion" (by decide) _]
    rfl

theorem fallback_lookup_eccentricity (t : List Char) :
    elemLookup "eccentricity" (fallbackScan t)
      = ((searchKey "e".data t).bind parseFloat).map some := by
  unfold fallbackScan
  rw [elemLookup_append_none (elemLookup_segOf_ne "eccentricity" "semimajor_axis" (by decide) _)]
  cases hr : (searchKey "e".data t).bind parseFloat with
  | some d =>
    have hs : elemLookup "eccentricity" (segOf "eccentricity" (searchKey "e".data t)) = some (some d) := by
      rw [elemLookup_segOf_self, hr]
      rfl
    rw [elemLookup_append_some hs]
    rfl
  | none =>
    have hn : elemLookup "eccentricity" (segOf "eccentricity" (searchKey "e".data t)) = none := by
      rw [elemLookup_segOf_self, hr]
      rfl
    rw [elemLookup_append_none hn]
    rw [elemLookup_append_none (elemLookup_segOf_ne "eccentricity" "inclination" (by decide) _)]
    rw [elemLookup_append_none (elemLookup_segOf_ne "eccentricity" "longitude_ascending_node" (by decide) _)]
    rw [elemLookup_append_none (elemLookup_segOf_ne "eccentricity" "argument_perihelion" (by decide) _)]
    rw [elemLookup_append_none (elemLookup_segOf_ne "eccentricity" "mean_anomaly" (by decide) _)]
    rw [elemLookup_append_none (elemLookup_segOf_ne "eccentricity" "perihelion" (by decide) _)]
    rw [elemLookup_segOf_ne "eccentricity" "aphelion" (by decide) _]
    rfl

theorem fallback_lookup_inclination (t : List Char) :
    elemLookup "inclination" (fallbackScan t)
      = ((searchKey "i".data t).bind parseFloat).map some := by
  unfold fallbackScan
  rw [elemLookup_append_none (elemLookup_segOf_ne "inclination" "semimajor_axis" (by decide) _)]
  rw [elemLookup_append_none (elemLookup_segOf_ne "inclination" "eccentricity" (by decide) _)]
  cases hr : (searchKey "i".data t).bind parseFloat with
  | some d =>
    have hs : elemLookup "inclination" (segOf "inclination" (searchKey "i".data t)) = some (some d) := by
      rw [elemLookup_segOf_self, hr]
      rfl
    rw [elemLookup_append_some hs]
    rfl
  | none =>
    have hn : elemLookup "inclination" (segOf "inclination" (searchKey "i".data t)) = none := by
      rw [elemLookup_segOf_self, hr]
      rfl
    rw [elemLookup_append_none hn]
    rw [elemLookup_append_none (elemLookup_segOf_ne "inclination" "longitude_ascending_node" (by decide) _)]
    rw [elemLookup_append_none (elemLookup_segOf_ne "inclination" "argument_perihelion" (by decide) _)]
    rw [elemLookup_append_none (elemLookup_segOf_ne "inclination" "mean_anomaly" (by decide) _)]
    rw [elemLookup_append_none (elemLookup_segOf_ne "inclination" "perihelion" (by decide) _)]
    rw [elemLookup_segOf_ne "inclination" "aphelion" (by decide) _]
    rfl

theorem fallback_lookup_longitude_ascending_node (t : List Char) :
    elemLookup "longitude_ascending_node" (fallbackScan t)
      = ((searchAlt "node".data "Omega".data t).bind parseFloat).map some := by
  unfold fallbackScan
  rw [elemLookup_append_none (elemLookup_segOf_ne "longitude_ascending_node" "semimajor_axis" (by decide) _)]
  rw [elemLookup_append_none (elemLookup_segOf_ne "longitude_ascending_node" "eccentricity" (by decide) _)]
  rw [elemLookup_append_none (elemLookup_segOf_ne "longitude_ascending_node" "inclination" (by decide) _)]
  cases hr : (searchAlt "node".data "Omega".data t).bind parseFloat with
  | some d =>
    have hs : elemLookup "longitude_ascending_node" (segOf "longitude_ascending_node" (searchAlt "node".data "Omega".data t)) = some (some d) := by
      rw [elemLookup_segOf_self, hr]
      rfl
    rw [elemLookup_append_some hs]
    rfl
  | none =>
    have hn : elemLookup "longitude_ascending_node" (segOf "longitude_ascending_node" (searchAlt "node".data "Omega".data t)) = none := by
      rw [elemLookup_segOf_self, hr]
      rfl
    rw [elemLookup_append_none hn]
    rw [elemLookup_append_none (elemLookup_segOf_ne "longitude_ascending_node" "argument_perihelion" (by decide) _)]
    rw [elemLookup_append_none (elemLookup_segOf_ne "longitude_ascending_node" "mean_anomaly" (by decide) _)]
    rw [elemLookup_append_none (elemLookup_segOf_ne "longitude_ascending_node" "perihelion" (by decide) _)]
    rw [elemLookup_segOf_ne "longitude_ascending_node" "aphelion" (by decide) _]
    rfl

theorem fallback_lookup_argument_perihelion (t : List Char) :
    elemLookup "argument_perihelion" (fallbackScan t)
      = ((searchAlt "peri".data "w".data t).bind parseFloat).map some := by
  unfold fallbackScan
  rw [elemLookup_append_none (elemLookup_segOf_ne "argument_perihelion" "semimajor_axis" (by decide) _)]
  rw [elemLookup_append_none (elemLookup_segOf_ne "argument_perihelion" "eccentricity" (by decide) _)]
  rw [elemLookup_append_none (elemLookup_segOf_ne "argument_perihelion" "inclination" (by decide) _)]
  rw [elemLookup_append_none (elemLookup_segOf_ne "argument_perihelion" "longitude_ascending_node" (by decide) _)]
  cases hr : (searchAlt "peri".data "w".data t).bind parseFloat with
  | some d =>
    have hs : elemLookup "argument_perihelion" (segOf "argument_perihelion" (searchAlt "peri".data "w".data t)) = some (some d) := by
      rw [elemLookup_segOf_self, hr]
      rfl
    rw [elemLookup_append_some hs]
    rfl
  | none =>
    have hn : elemLookup "argument_perihelion" (segOf "argument_perihelion" (searchAlt "peri".data "w".data t)) = none := by
      rw [elemLookup_segOf_self, hr]
      rfl
    rw [elemLookup_append_none hn]
    rw [elemLookup_append_none (elemLookup_segOf_ne "argument_perihelion" "mean_anomaly" (by decide) _)]
    rw [elemLookup_append_none (elemLookup_segOf_ne "argument_perihelion" "perihelion" (by decide) _)]
    rw [elemLookup_segOf_ne "argument_perihelion" "aphelion" (by decide) _]
    rfl

theorem fallback_lookup_mean_anomaly (t : List Char) :
    elemLookup "mean_anomaly" (fallbackScan t)
      = ((searchKey "M".data t).bind parseFloat).map some := by
  unfold fallbackScan
  rw [elemLookup_append_none (elemLookup_segOf_ne "mean_anomaly" "semimajor_axis" (by decide) _)]
  rw [elemLookup_append_none (elemLookup_segOf_ne "mean_anomaly" "eccentricity" (by decide) _)]
  rw [elemLookup_append_none (elemLookup_segOf_ne "mean_anomaly" "inclination" (by decide) _)]
  rw [elemLookup_append_none (elemLookup_segOf_ne "mean_anomaly" "longitude_ascending_node" (by decide) _)]
  rw [elemLookup_append_none (elemLookup_segOf_ne "mean_anomaly" "argument_perihelion" (by decide) _)]
  cases hr : (searchKey "M".data t).bind parseFloat with
  | some d =>
    have hs : elemLookup "mean_anomaly" (segOf "mean_anomaly" (searchKey "M".data t)) = some (some d) := by
      rw [elemLookup_segOf_self, hr]
      rfl
    rw [elemLookup_append_some hs]
    rfl
  | none =>
    have hn : elemLookup "mean_anomaly" (segOf "mean_anomaly" (searchKey "M".data t)) = none := by
      rw [elemLookup_segOf_self, hr]
      rfl
    rw [elemLookup_append_none hn]
    rw [elemLookup_append_none (elemLookup_segOf_ne "mean_anomaly" "perihelion" (by decide) _)]
    rw [elemLookup_segOf_ne "mean_anomaly" "aphelion" (by decide) _]
    rfl

theorem fallback_lookup_perihelion (t : List Char) :
    elemLookup "perihelion" (fallbackScan t)
      = ((searchKey "q".data t).bind parseFloat).map some := by
  unfold fallbackScan
  rw [elemLookup_append_none (elemLookup_segOf_ne "perihelion" "semimajor_axis" (by decide) _)]
  rw [elemLookup_append_none (elemLookup_segOf_ne "perihelion" "eccentricity" (by decide) _)]
  rw [elemLookup_append_none (elemLookup_segOf_ne "perihelion" "inclination" (by decide) _)]
  rw [elemLookup_append_none (elemLookup_segOf_ne "perihelion" "longitude_ascending_node" (by decide) _)]
  rw [elemLookup_append_none (elemLookup_segOf_ne "perihelion" "argument_perihelion" (by decide) _)]
  rw [elemLookup_append_none (elemLookup_segOf_ne "perihelion" "mean_anomaly" (by decide) _)]
  cases hr : (searchKey "q".data t).bind parseFloat with
  | some d =>
    have hs : elemLookup "perihelion" (segOf "perihelion" (searchKey "q".data t)) = some (some d) := by
      rw [elemLookup_segOf_self, hr]
      rfl
    rw [elemLookup_append_some hs]
    rfl
  | none =>
    have hn : elemLookup "perihelion" (segOf "perihelion" (searchKey "q".data t)) = none := by
      rw [elemLookup_segOf_self, hr]
      rfl
    rw [elemLookup_append_none hn]
    rw [elemLookup_segOf_ne "perihelion" "aphelion" (by decide) _]
    rfl

theorem fallback_lookup_aphelion (t : List Char) :
    elemLookup "aphelion" (fallbackScan t)
      = ((searchKey "Q".data t).bind parseFloat).map some := by
  unfold fallbackScan
  rw [elemLookup_append_none (elemLookup_segOf_ne "aphelion" "semimajor_axis" (by decide) _)]
  rw [elemLookup_append_none (elemLookup_segOf_ne "aphelion" "eccentricity" (by decide) _)]
  rw [elemLookup_append_none (elemLookup_segOf_ne "aphelion" "inclination" (by decide) _)]
  rw [elemLookup_append_none (elemLookup_segOf_ne "aphelion" "longitude_ascending_node" (by decide) _)]
  rw [elemLookup_append_none (elemLookup_segOf_ne "aphelion" "argument_perihelion" (by decide) _)]
  rw [elemLookup_append_none (elemLookup_segOf_ne "aphelion" "mean_anomaly" (by decide) _)]
  rw [elemLookup_append_none (elemLookup_segOf_ne "aphelion" "perihelion" (by decide) _)]
  rw [elemLookup_segOf_self]

/-! ## Structure of successful tabular rows and of the extractor result -/

/-- A successful row parse pins down every field access and the exact
shape of the dict that replaces `elements`. -/
theorem parseRow_shape {parts : List (List Char)} {e : Elements}
    (h : parseRow parts = some e) :
    ∃ ec qr inc om w ma ax ad pr,
      fz parts 0 = some ec ∧ fz parts 1 = some qr ∧ fz parts 2 = some inc ∧
      fz parts 3 = some om ∧ fz parts 4 = some w ∧ fz parts 7 = some ma ∧
      fz parts 9 = some ax ∧ fz parts 10 = some ad ∧ fnull parts 11 = some pr ∧
      e = [("eccentricity", some ec), ("perihelion", some qr), ("inclination", some inc),
           ("longitude_ascending_node", some om), ("argument_perihelion", some w),
           ("mean_anomaly", some ma), ("semimajor_axis", some ax),
           ("aphelion", some ad), ("orbital_period", pr)] := by
  unfold parseRow at h
  cases h0 : fz parts 0 with
  | none => rw [h0] at h; exact absurd h (by simp)
  | some ec =>
  rw [h0] at h
  cases h1 : fz parts 1 with
  | none => rw [h1] at h; exact absurd h (by simp)
  | some qr =>
  rw [h1] at h
  cases h2 : fz parts 2 with
  | none => rw [h2] at h; exact absurd h (by simp)
  | some inc =>
  rw [h2] at h
  cases h3 : fz parts 3 with
  | none => rw [h3] at h; exact absurd h (by simp)
  | some om =>
  rw [h3] at h
  cases h4 : fz parts 4 with
  | none => rw [h4] at h; exact absurd h (by simp)
  | some w =>
  rw [h4] at h
  cases h7 : fz parts 7 with
  | none => rw [h7] at h; exact absurd h (by simp)
  | some ma =>
  rw [h7] at h
  cases h9 : fz parts 9 with
  | none => rw [h9] at h; exact absurd h (by simp)
  | some ax =>
  rw [h9] at h
  cases h10 : fz parts 10 with
  | none => rw [h10] at h; exact absurd h (by simp)
  | some ad =>
  rw [h10] at h
  cases h11 : fnull parts 11 with
  | none => rw [h11] at h; exact absurd h (by simp)
  | some pr =>
  rw [h11] at h
  simp only [Option.some.injEq] at h
  exact ⟨ec, qr, inc, om, w, ma, ax, ad, pr, rfl, rfl, rfl, rfl, rfl, rfl, rfl, rfl, rfl,
    h.symm⟩

/-- A row of exactly 11 fields never updates `elements`: the access
`parts[11]` raises `IndexError`, the whole dict literal is abandoned and
the exception is swallowed. -/
theorem parseRow_of_length_11 {parts : List (List Char)}
    (h : parts.length = 11) : parseRow parts = none := by
  cases hp : parseRow parts with
  | none => rfl
  | some e =>
    obtain ⟨_, _, _, _, _, _, _, _, pr, _, _, _, _, _, _, _, _, h11, _⟩ := parseRow_shape hp
    have : parts.get? 11 = none := by
      rw [List.get?_eq_none]
      omega
    rw [fnull, this] at h11
    exact absurd h11 (by simp)

/-- Each step of the line loop either keeps the accumulator or installs
a successfully parsed row. -/
theorem tabStep_cases (acc : Elements) (line : List Char) :
    tabStep acc line = acc ∨
    ∃ parts e, parseRow parts = some e ∧ tabStep acc line = e := by
  unfold tabStep
  by_cases h1 : (line.contains ',' && line.any Char.isDigit) = true
  · rw [if_pos h1]
    by_cases h2 : 11 ≤ ((splitOnChar ',' line).map stripWs).length
    · rw [if_pos h2]
      cases hp : parseRow ((splitOnChar ',' line).map stripWs) with
      | none => exact Or.inl rfl
      | some e => exact Or.inr ⟨_, e, hp, rfl⟩
    · rw [if_neg h2]
      exact Or.inl rfl
  · rw [if_neg h1]
    exact Or.inl rfl

/-- Any property holding of the empty dict and of every successfully
parsed row holds of the line loop's result. -/
theorem foldl_tabStep_inv (P : Elements → Prop)
    (hrow : ∀ parts e, parseRow parts = some e → P e) :
    ∀ (lines : List (List Char)) (acc : Elements), P acc →
      P (lines.foldl tabStep acc)
  | [], _, h => h
  | l :: ls, acc, h => by
    rw [List.foldl_cons]
    apply foldl_tabStep_inv P hrow ls
    rcases tabStep_cases acc l with he | ⟨parts, e, hp, he⟩
    · rw [he]; exact h
    · rw [he]; exact hrow parts e hp

theorem tabularScan_inv (P : Elements → Prop) (hemp : P [])
    (hrow : ∀ parts e, parseRow parts = some e → P e)
    (lines : List (List Char)) : P (tabularScan lines) :=
  foldl_tabStep_inv P hrow lines [] hemp

theorem tabularPart_inv (P : Elements → Prop) (hemp : P [])
    (hrow : ∀ parts e, parseRow parts = some e → P e)
    (t : List Char) : P (tabularPart t) := by
  unfold tabularPart
  split
  · exact tabularScan_inv P hemp hrow _
  · exact hemp

/-- A successful extraction returns either the tabular dict or the
fallback dict. -/
theorem parse_cases {t : List Char} {e : Elements}
    (h : parse_horizons_output t = some e) :
    e = tabularPart t ∨ e = fallbackScan t := by
  unfold parse_horizons_output at h
  split at h
  · exact absurd h (by simp)
  · split at h
    · exact absurd h (by simp)
    · have he : e = chosenElements t := by
        simpa using h.symm
      unfold chosenElements at he
      by_cases htab : (tabularPart t).isEmpty
      · rw [if_pos htab] at he
        exact Or.inr he
      · rw [if_neg htab] at he
        exact Or.inl he

/-- A successful extraction is never the empty dict. -/
theorem parse_nonempty {t : List Char} {e : Elements}
    (h : parse_horizons_output t = some e) : e ≠ [] := by
  unfold parse_horizons_output at h
  split at h
  · exact absurd h (by simp)
  · split at h
    · exact absurd h (by simp)
    · next hne =>
      have he : e = chosenElements t := by simpa using h.symm
      intro hnil
      rw [he] at hnil
      rw [hnil] at hne
      exact hne rfl

/-- Every entry a pattern contributes carries a parsed float value. -/
theorem segOf_mem {k : String} {r : Option (List Char)} {p : String × Option Dec}
    (h : p ∈ segOf k r) : ∃ d, p = (k, some d) := by
  cases r with
  | none => simp [segOf] at h
  | some v =>
    cases hp : parseFloat v with
    | none => simp [segOf, hp] at h
    | some d =>
      simp [segOf, hp] at h
      exact ⟨d, by rw [h]⟩

/-- Every entry of the fallback dict carries a float value (never
Python `None`). -/
theorem fallbackScan_values {t : List Char} {p : String × Option Dec}
    (h : p ∈ fallbackScan t) : ∃ k d, p = (k, some d) := by
  unfold fallbackScan at h
  rcases List.mem_append.mp h with h | h
  · obtain ⟨d, hd⟩ := segOf_mem h; exact ⟨_, d, hd⟩
  rcases List.mem_append.mp h with h | h
  · obtain ⟨d, hd⟩ := segOf_mem h; exact ⟨_, d, hd⟩
  rcases List.mem_append.mp h with h | h
  · obtain ⟨d, hd⟩ := segOf_mem h; exact ⟨_, d, hd⟩
  rcases List.mem_append.mp h with h | h
  · obtain ⟨d, hd⟩ := segOf_mem h; exact ⟨_, d, hd⟩
  rcases List.mem_append.mp h with h | h
  · obtain ⟨d, hd⟩ := segOf_mem h; exact ⟨_, d, hd⟩
  rcases List.mem_append.mp h with h | h
  · obtain ⟨d, hd⟩ := segOf_mem h; exact ⟨_, d, hd⟩
  rcases List.mem_append.mp h with h | h
  · obtain ⟨d, hd⟩ := segOf_mem h; exact ⟨_, d, hd⟩
  · obtain ⟨d, hd⟩ := segOf_mem h; exact ⟨_, d, hd⟩

/-- In a successfully parsed row, only `orbital_period` can be bound to
Python `None`. -/
theorem parseRow_none_key {parts : List (List Char)} {e : Elements}
    {k : String} {v : Option Dec} (h : parseRow parts = some e)
    (hm : (k, v) ∈ e) (hv : v = none) : k = "orbital_period" := by
  obtain ⟨ec, qr, inc, om, w, ma, ax, ad, pr, _, _, _, _, _, _, _, _, _, he⟩ :=
    parseRow_shape h
  subst he hv
  simp only [List.mem_cons, List.not_mem_nil, or_false, Prod.mk.injEq] at hm
  rcases hm with ⟨_, h'⟩ | ⟨_, h'⟩ | ⟨_, h'⟩ | ⟨_, h'⟩ | ⟨_, h'⟩ | ⟨_, h'⟩ | ⟨_, h'⟩
    | ⟨_, h'⟩ | ⟨hk, _⟩
  all_goals first
    | exact absurd h'.symm (by simp)
    | assumption

/-- Only the `orbital_period` key of an extraction result can be bound
to Python `None`; in particular the values the classifier and the
clustering summary read (`perihelion`, `longitude_ascending_node`,
`argument_perihelion`) are floats whenever present, so comparing or
adding them never raises `TypeError`. -/
theorem parse_none_only_orbital_period {t : List Char} {e : Elements}
    {k : String} {v : Option Dec} (h : parse_horizons_output t = some e)
    (hm : (k, v) ∈ e) (hv : v = none) : k = "orbital_period" := by
  rcases parse_cases h with he | he
  · subst he
    exact tabularPart_inv
      (fun e' => ∀ k v, (k, v) ∈ e' → v = none → k = "orbital_period")
      (by simp)
      (fun parts e' hp k' v' hm' hv' => parseRow_none_key hp hm' hv')
      t k v hm hv
  · subst he
    obtain ⟨k', d, hd⟩ := fallbackScan_values hm
    rw [Prod.mk.injEq] at hd
    exact absurd (hd.2.symm.trans hv) (by simp)

/-! ## The claims -/

/-- C2: the Element Extractor never returns a present-but-empty
mapping: a successful result is a nonempty dict, and when both
strategies yield zero elements the extractor reports absent (`none`),
so absent and empty collapse to one signal. -/
theorem claim_C2_absent_empty_collapse (t : List Char) :
    (∀ e, parse_horizons_output t = some e → e ≠ []) ∧
    (tabularPart t = [] → fallbackScan t = [] → parse_horizons_output t = none) := by
  constructor
  · intro e h
    exact parse_nonempty h
  · intro htab hfb
    unfold parse_horizons_output
    by_cases hs : (containsSub notFound1 t || containsSub notFound2 t) = true
    · rw [if_pos hs]
    · rw [if_neg hs]
      have hce : chosenElements t = [] := by
        unfold chosenElements
        rw [htab, hfb]
        rfl
      rw [if_pos (by rw [hce]; rfl)]

/-- C2 witness: on a text with no markers and no patterns both
strategies are empty and the extractor reports absent. -/
theorem claim_C2_witness : parse_horizons_output "no data here".data = none :=
  (claim_C2_absent_empty_collapse "no data here".data).2 (by decide) (by decide)

/-- C3: any text containing either "object not recognized" sentinel
phrase makes the Extractor return absent, regardless of any other
content in the text. -/
theorem claim_C3_not_found_priority (t : List Char)
    (h : containsSub notFound1 t = true ∨ containsSub notFound2 t = true) :
    parse_horizons_output t = none := by
  unfold parse_horizons_output
  rcases h with h | h
  · rw [if_pos (by rw [h]; rfl)]
  · rw [if_pos (by rw [h, Bool.or_true])]

/-- C3 witness: the sentinel wins even over a well-formed tabular block
and a key-value pattern present in the same text. -/
theorem claim_C3_witness :
    parse_horizons_output
      "Cannot find target body. $$SOE\n0.25,30.1,10.5,100.2,200.3,0,0,15.0,0,400.0,500.0,1000\n$$EOE a = 5".data
      = none :=
  claim_C3_not_found_priority _ (Or.inr (by decide))

/-- C4: on a sentinel-free text whose tabular block holds the row
`0.25,30.1,10.5,100.2,200.3,0,0,15.0,0,400.0,500.0,1000`, extraction
returns eccentricity=0.25, perihelion=30.1, inclination=10.5,
longitude_ascending_node=100.2, argument_perihelion=200.3,
mean_anomaly=15.0, semimajor_axis=400.0, aphelion=500.0,
orbital_period=1000. -/
theorem claim_C4_tabular_example :
    parse_horizons_output
        "$$SOE\n0.25,30.1,10.5,100.2,200.3,0,0,15.0,0,400.0,500.0,1000\n$$EOE".data
      = some [("eccentricity", some ⟨25, 2⟩), ("perihelion", some ⟨301, 1⟩),
          ("inclination", some ⟨105, 1⟩), ("longitude_ascending_node", some ⟨1002, 1⟩),
          ("argument_perihelion", some ⟨2003, 1⟩), ("mean_anomaly", some ⟨150, 1⟩),
          ("semimajor_axis", some ⟨4000, 1⟩), ("aphelion", some ⟨5000, 1⟩),
          ("orbital_period", some ⟨1000, 0⟩)] ∧
    Dec.toRat ⟨25, 2⟩ = 0.25 ∧ Dec.toRat ⟨301, 1⟩ = 30.1 ∧
    Dec.toRat ⟨105, 1⟩ = 10.5 ∧ Dec.toRat ⟨1002, 1⟩ = 100.2 ∧
    Dec.toRat ⟨2003, 1⟩ = 200.3 ∧ Dec.toRat ⟨150, 1⟩ = 15.0 ∧
    Dec.toRat ⟨4000, 1⟩ = 400.0 ∧ Dec.toRat ⟨5000, 1⟩ = 500.0 ∧
    Dec.toRat ⟨1000, 0⟩ = 1000 := by
  refine ⟨by decide, ?_, ?_, ?_, ?_, ?_, ?_, ?_, ?_, ?_⟩ <;>
    norm_num [Dec.toRat]

/-- C1 counterexample: a sentinel-delimited data row of exactly 11
fields, each parsing as a number, extracts nothing at all — the
extractor returns absent instead of a mapping with the eight non-period
elements, because evaluating `parts[11]` in the dict literal raises
`IndexError` and aborts the whole assignment. -/
theorem claim_C1_counterexample :
    parse_horizons_output "$$SOE\n1,2,3,4,5,6,7,8,9,10,11\n$$EOE".data = none := by
  decide

/-- C1 (amended): the tabular strategy reads the fixed positions
eccentricity=0, perihelion=1, inclination=2, longitude_ascending_node=3,
argument_perihelion=4, mean_anomaly=7, semimajor_axis=9, aphelion=10 and
orbital_period=11 only for rows with at least 12 fields (with
orbital_period unknown when field 11 is empty); a row with exactly 11
fields is skipped wholesale, extracting no elements. -/
theorem claim_C1_tabular_field_positions :
    (∀ (parts : List (List Char)) (v0 v1 v2 v3 v4 v7 v9 v10 : Dec) (pr : Option Dec),
      fz parts 0 = some v0 → fz parts 1 = some v1 → fz parts 2 = some v2 →
      fz parts 3 = some v3 → fz parts 4 = some v4 → fz parts 7 = some v7 →
      fz parts 9 = some v9 → fz parts 10 = some v10 → fnull parts 11 = some pr →
      parseRow parts
        = some [("eccentricity", some v0), ("perihelion", some v1),
            ("inclination", some v2), ("longitude_ascending_node", some v3),
            ("argument_perihelion", some v4), ("mean_anomaly", some v7),
            ("semimajor_axis", some v9), ("aphelion", some v10),
            ("orbital_period", pr)]) ∧
    (∀ parts : List (List Char), parts.length = 11 → parseRow parts = none) := by
  constructor
  · intro parts v0 v1 v2 v3 v4 v7 v9 v10 pr h0 h1 h2 h3 h4 h7 h9 h10 h11
    unfold parseRow
    rw [h0, h1, h2, h3, h4, h7, h9, h10, h11]
  · intro parts h
    exact parseRow_of_length_11 h

/-- C1 witness: both halves at concrete rows. -/
theorem claim_C1_witness :
    parseRow ["0.25".data, "30.1".data, "10.5".data, "100.2".data, "200.3".data,
        "0".data, "0".data, "15.0".data, "0".data, "400.0".data, "500.0".data,
        "1000".data]
      = some [("eccentricity", some ⟨25, 2⟩), ("perihelion", some ⟨301, 1⟩),
          ("inclination", some ⟨105, 1⟩), ("longitude_ascending_node", some ⟨1002, 1⟩),
          ("argument_perihelion", some ⟨2003, 1⟩), ("mean_anomaly", some ⟨150, 1⟩),
          ("semimajor_axis", some ⟨4000, 1⟩), ("aphelion", some ⟨5000, 1⟩),
          ("orbital_period", some ⟨1000, 0⟩)] ∧
    parseRow ["1".data, "2".data, "3".data, "4".data, "5".data, "6".data,
        "7".data, "8".data, "9".data, "10".data, "11".data] = none :=
  ⟨claim_C1_tabular_field_positions.1 _ _ _ _ _ _ _ _ _ _ (by decide) (by decide)
      (by decide) (by decide) (by decide) (by decide) (by decide) (by decide) (by decide),
   claim_C1_tabular_field_positions.2 _ (by decide)⟩

/-- C5: the two strategies treat missing values asymmetrically.  In the
tabular strategy an empty field string among the positional fields maps
to numeric zero (a row with field 0 empty yields eccentricity 0, not
absent), except the orbital period, which maps to unknown (`None`); in
the fallback strategy a matched value that fails numeric parsing leaves
that element absent, not zero. -/
theorem claim_C5_missing_value_asymmetry :
    (∀ (parts : List (List Char)) (e : Elements), parts.get? 0 = some [] →
      parseRow parts = some e →
      elemLookup "eccentricity" e = some (some ⟨0, 0⟩)) ∧
    (∀ (parts : List (List Char)) (e : Elements), parts.get? 11 = some [] →
      parseRow parts = some e →
      elemLookup "orbital_period" e = some none) ∧
    (∀ (t v : List Char), searchKey "a".data t = some v → parseFloat v = none →
      elemLookup "semimajor_axis" (fallbackScan t) = none) ∧
    (∀ (t v : List Char), searchKey "e".data t = some v → parseFloat v = none →
      elemLookup "eccentricity" (fallbackScan t) = none) ∧
    (∀ (t v : List Char), searchKey "i".data t = some v → parseFloat v = none →
      elemLookup "inclination" (fallbackScan t) = none) ∧
    (∀ (t v : List Char), searchAlt "node".data "Omega".data t = some v → parseFloat v = none →
      elemLookup "longitude_ascending_node" (fallbackScan t) = none) ∧
    (∀ (t v : List Char), searchAlt "peri".data "w".data t = some v → parseFloat v = none →
      elemLookup "argument_perihelion" (fallbackScan t) = none) ∧
    (∀ (t v : List Char), searchKey "M".data t = some v → parseFloat v = none →
      elemLookup "mean_anomaly" (fallbackScan t) = none) ∧
    (∀ (t v : List Char), searchKey "q".data t = some v → parseFloat v = none →
      elemLookup "perihelion" (fallbackScan t) = none) ∧
    (∀ (t v : List Char), searchKey "Q".data t = some v → parseFloat v = none →
      elemLookup "aphelion" (fallbackScan t) = none)
    := by
  refine ⟨?_, ?_, ?_, ?_, ?_, ?_, ?_, ?_, ?_, ?_⟩
  · intro parts e hget h
    obtain ⟨ec, qr, inc, om, w, ma, ax, ad, pr, h0, h1, h2, h3, h4, h7, h9, h10, h11, he⟩ :=
      parseRow_shape h
    have hec : ec = ⟨0, 0⟩ := by
      unfold fz at h0
      rw [hget] at h0
      simp [fieldZero] at h0
      exact h0.symm
    subst he
    rw [hec]
    simp [elemLookup]
  · intro parts e hget h
    obtain ⟨ec, qr, inc, om, w, ma, ax, ad, pr, h0, h1, h2, h3, h4, h7, h9, h10, h11, he⟩ :=
      parseRow_shape h
    have hpr : pr = none := by
      unfold fnull at h11
      rw [hget] at h11
      simp [fieldNull] at h11
      exact h11.symm
    subst he
    rw [hpr]
    simp [elemLookup]
  · intro t v hs hp
    rw [fallback_lookup_semimajor_axis, hs]
    simp [hp]
  · intro t v hs hp
    rw [fallback_lookup_eccentricity, hs]
    simp [hp]
  · intro t v hs hp
    rw [fallback_lookup_inclination, hs]
    simp [hp]
  · intro t v hs hp
    rw [fallback_lookup_longitude_ascending_node, hs]
    simp [hp]
  · intro t v hs hp
    rw [fallback_lookup_argument_perihelion, hs]
    simp [hp]
  · intro t v hs hp
    rw [fallback_lookup_mean_anomaly, hs]
    simp [hp]
  · intro t v hs hp
    rw [fallback_lookup_perihelion, hs]
    simp [hp]
  · intro t v hs hp
    rw [fallback_lookup_aphelion, hs]
    simp [hp]

/-- C5 witness: a row with an empty field 0 yields eccentricity 0, and
a matched-but-unparseable fallback value yields an absent key. -/
theorem claim_C5_witness :
    elemLookup "eccentricity"
        [("eccentricity", some ⟨0, 0⟩), ("perihelion", some ⟨301, 1⟩),
         ("inclination", some ⟨105, 1⟩), ("longitude_ascending_node", some ⟨1002, 1⟩),
         ("argument_perihelion", some ⟨2003, 1⟩), ("mean_anomaly", some ⟨150, 1⟩),
         ("semimajor_axis", some ⟨4000, 1⟩), ("aphelion", some ⟨5000, 1⟩),
         ("orbital_period", some ⟨1000, 0⟩)] = some (some ⟨0, 0⟩) ∧
    elemLookup "eccentricity" (fallbackScan "e = ++".data) = none :=
  ⟨claim_C5_missing_value_asymmetry.1
      [[], "30.1".data, "10.5".data, "100.2".data, "200.3".data, "0".data,
       "0".data, "15.0".data, "0".data, "400.0".data, "500.0".data, "1000".data]
      _ (by decide) (by decide),
   claim_C5_missing_value_asymmetry.2.2.2.1 "e = ++".data "++".data
      (by decide) (by decide)⟩

/-- C6: a TNO record is tagged `extreme_tno` exactly when its extracted
perihelion strictly exceeds 30 AU, else `tno` (perihelion 35 gives
`extreme_tno`; 30 and 29.9 give `tno`); the planet record carries no
`type` key at all. -/
theorem claim_C6_extreme_tno_threshold :
    (∀ (e : Elements) (q : Dec), elemLookup "perihelion" e = some (some q) →
      (tnoType e = "extreme_tno" ↔ 30 < q.toRat)) ∧
    tnoType [("perihelion", some ⟨35, 0⟩)] = "extreme_tno" ∧
    tnoType [("perihelion", some ⟨30, 0⟩)] = "tno" ∧
    tnoType [("perihelion", some ⟨299, 1⟩)] = "tno" ∧
    Dec.toRat ⟨35, 0⟩ = 35 ∧ Dec.toRat ⟨30, 0⟩ = 30 ∧ Dec.toRat ⟨299, 1⟩ = 29.9 ∧
    (∀ (name id : String) (mass : Dec) (e : Elements),
      "type" ∉ (mkPlanetRecord name id mass e).map Prod.fst) := by
  refine ⟨?_, by decide, by decide, by decide, by norm_num [Dec.toRat],
    by norm_num [Dec.toRat], by norm_num [Dec.toRat], ?_⟩
  · intro e q h
    unfold tnoType
    have hget : getFloatD e "perihelion" ⟨0, 0⟩ = q := by
      unfold getFloatD
      rw [h]
    rw [hget]
    have h30 : Dec.toRat ⟨30, 0⟩ = 30 := by norm_num [Dec.toRat]
    cases hb : Dec.blt ⟨30, 0⟩ q with
    | false =>
      have hnot : ¬ 30 < q.toRat := by
        intro hq
        have hbt : Dec.blt ⟨30, 0⟩ q = true :=
          (Dec.blt_iff ⟨30, 0⟩ q).mpr (by rw [h30]; exact hq)
        rw [hb] at hbt
        exact absurd hbt (by simp)
      simp only [hb, Bool.false_eq_true, if_false]
      constructor
      · intro hs
        exact absurd hs (by decide)
      · intro hq
        exact absurd hq hnot
    | true =>
      have hlt : 30 < q.toRat := by
        have := (Dec.blt_iff ⟨30, 0⟩ q).mp hb
        rwa [h30] at this
      simp only [hb, if_true]
      exact iff_of_true trivial hlt
  · intro name id mass e
    simp only [mkPlanetRecord, List.map_cons, List.map_nil]
    decide

/-- C6 witness: the threshold equivalence at perihelion 35. -/
theorem claim_C6_witness :
    tnoType [("perihelion", some ⟨35, 0⟩)] = "extreme_tno" ↔
      30 < Dec.toRat ⟨35, 0⟩ :=
  claim_C6_extreme_tno_threshold.1 [("perihelion", some ⟨35, 0⟩)] ⟨35, 0⟩ (by decide)

/-- C7: for each TNO the primary identifier is tried first; only if it
yields no data is the designation-prefixed alternate tried, exactly
once; resolution stops at the first success, never consults a third
form, and the assembled record embeds the elements of whichever attempt
succeeded. -/
theorem claim_C7_identifier_resolution (fetch : String → Option Elements) (id : String) :
    (∀ e, fetch id = some e →
      resolveTNO fetch id = some e ∧ resolveTried fetch id = [id]) ∧
    (fetch id = none →
      resolveTNO fetch id = fetch ("DES=" ++ id) ∧
      resolveTried fetch id = [id, "DES=" ++ id]) ∧
    (resolveTried fetch id).length ≤ 2 ∧
    (∀ f ∈ resolveTried fetch id, f = id ∨ f = "DES=" ++ id) ∧
    (∀ (name designation : String) (e : Elements), resolveTNO fetch id = some e →
      assembleTNO fetch name id designation = some (mkTNORecord name designation e) ∧
      lookupRec "orbital_elements" (mkTNORecord name designation e)
        = some (.elems e)) := by
  refine ⟨?_, ?_, ?_, ?_, ?_⟩
  · intro e h
    constructor <;>
      simp [resolveTNO, resolveTried, idFormats, tryFormats, triedFormats, h]
  · intro h
    cases h2 : fetch ("DES=" ++ id) with
    | none =>
      constructor <;>
        simp [resolveTNO, resolveTried, idFormats, tryFormats, triedFormats, h, h2]
    | some e =>
      constructor <;>
        simp [resolveTNO, resolveTried, idFormats, tryFormats, triedFormats, h, h2]
  · cases h1 : fetch id with
    | none =>
      cases h2 : fetch ("DES=" ++ id) with
      | none => simp [resolveTried, idFormats, triedFormats, h1, h2]
      | some e => simp [resolveTried, idFormats, triedFormats, h1, h2]
    | some e => simp [resolveTried, idFormats, triedFormats, h1]
  · intro f hf
    cases h1 : fetch id with
    | none =>
      rw [resolveTried, idFormats] at hf
      simp only [triedFormats, h1] at hf
      cases h2 : fetch ("DES=" ++ id) with
      | none =>
        rw [h2] at hf
        simp only [triedFormats] at hf
        simpa using hf
      | some e =>
        rw [h2] at hf
        simpa using hf
    | some e =>
      rw [resolveTried, idFormats] at hf
      simp only [triedFormats, h1] at hf
      exact Or.inl (by simpa using hf)
  · intro name designation e h
    constructor
    · unfold assembleTNO
      rw [h]
      rfl
    · simp [mkTNORecord, lookupRec]

/-- C7 witness: with a fetch collaborator on which the primary
identifier fails and the alternate succeeds, resolution returns the
alternate's elements after trying exactly the two formats. -/
theorem claim_C7_witness :
    resolveTNO
        (fun s => if s = "90377" then none
          else if s = "DES=90377" then some [("perihelion", some ⟨80, 0⟩)] else none)
        "90377"
      = some [("perihelion", some ⟨80, 0⟩)] ∧
    resolveTried
        (fun s => if s = "90377" then none
          else if s = "DES=90377" then some [("perihelion", some ⟨80, 0⟩)] else none)
        "90377"
      = ["90377", "DES=90377"] := by
  have h := (claim_C7_identifier_resolution
    (fun s => if s = "90377" then none
      else if s = "DES=90377" then some [("perihelion", some ⟨80, 0⟩)] else none)
    "90377").2.1 (by decide)
  refine ⟨?_, ?_⟩
  · rw [h.1]
    decide
  · rw [h.2]
    decide

/-- C8: for every record tagged `extreme_tno` the clustering summary
reports the longitude of perihelion
`(longitude_ascending_node + argument_perihelion) mod 360`, each addend
defaulting to zero when absent; the computation feeds only the console
report — the persisted document's `etnos` entry is the record list
itself, unchanged. -/
theorem claim_C8_longitude_of_perihelion :
    (∀ (tnos : List PyRec) (t : PyRec), t ∈ tnos →
      lookupRec "type" t = some (.str "extreme_tno") →
      (recName t, lonPeri (recElems t),
        getFloatD (recElems t) "perihelion" ⟨0, 0⟩) ∈ clusterSummary tnos) ∧
    (∀ e : Elements,
      (lonPeri e).toRat
        = pyModRat ((getFloatD e "longitude_ascending_node" ⟨0, 0⟩).toRat
            + (getFloatD e "argument_perihelion" ⟨0, 0⟩).toRat) 360) ∧
    (∀ (e : Elements) (k : String), elemLookup k e = none →
      getFloatD e k ⟨0, 0⟩ = ⟨0, 0⟩ ∧ Dec.toRat ⟨0, 0⟩ = 0) ∧
    (∀ (version fetchDate : String) (planets tnos : List PyRec),
      lookupRec "etnos" (buildOutput version fetchDate planets tnos)
        = some (.list (tnos.map PyVal.obj))) := by
  refine ⟨?_, ?_, ?_, ?_⟩
  · intro tnos t ht htype
    unfold clusterSummary
    exact List.mem_map_of_mem _
      (List.mem_filter.mpr ⟨ht, by rw [htype]; rfl⟩)
  · intro e
    unfold lonPeri
    rw [Dec.toRat_pymodInt _ 360 (by norm_num), Dec.toRat_add]
    norm_num
  · intro e k h
    constructor
    · unfold getFloatD
      rw [h]
    · norm_num [Dec.toRat]
  · intro version fetchDate planets tnos
    rfl

/-- C8 witness: one extreme record's summary line. -/
theorem claim_C8_witness :
    (recName (mkTNORecord "Sedna" "2003 VB12"
        [("perihelion", some ⟨76, 0⟩), ("longitude_ascending_node", some ⟨144, 0⟩),
         ("argument_perihelion", some ⟨311, 0⟩)]),
     lonPeri (recElems (mkTNORecord "Sedna" "2003 VB12"
        [("perihelion", some ⟨76, 0⟩), ("longitude_ascending_node", some ⟨144, 0⟩),
         ("argument_perihelion", some ⟨311, 0⟩)])),
     getFloatD (recElems (mkTNORecord "Sedna" "2003 VB12"
        [("perihelion", some ⟨76, 0⟩), ("longitude_ascending_node", some ⟨144, 0⟩),
         ("argument_perihelion", some ⟨311, 0⟩)])) "perihelion" ⟨0, 0⟩)
      ∈ clusterSummary [mkTNORecord "Sedna" "2003 VB12"
        [("perihelion", some ⟨76, 0⟩), ("longitude_ascending_node", some ⟨144, 0⟩),
         ("argument_perihelion", some ⟨311, 0⟩)]] :=
  claim_C8_longitude_of_perihelion.1 _ _ (by simp) rfl

/-- Under `re.IGNORECASE`, consuming the key `q` and consuming the key
`Q` are the same test. -/
theorem dropKeyCI_q_eq (s : List Char) :
    dropKeyCI "q".data s = dropKeyCI "Q".data s := by
  cases s with
  | nil => rfl
  | cons c cs =>
    show dropKeyCI ('q' :: []) (c :: cs) = dropKeyCI ('Q' :: []) (c :: cs)
    have h : 'Q'.toLower = 'q'.toLower := by decide
    simp only [dropKeyCI]
    rw [h]

theorem matchKeyAt_q_eq (s : List Char) :
    matchKeyAt "q".data s = matchKeyAt "Q".data s := by
  unfold matchKeyAt
  rw [dropKeyCI_q_eq]

theorem searchAt_congr {f g : List Char → Option (List Char)}
    (h : ∀ s, f s = g s) : ∀ s, searchAt f s = searchAt g s
  | [] => by
    unfold searchAt
    rw [h]
  | x :: xs => by
    unfold searchAt
    rw [h]
    cases g (x :: xs) with
    | some v => rfl
    | none => exact searchAt_congr h xs

/-- The perihelion pattern `q = ...` and the aphelion pattern `Q = ...`
find the same match in every text. -/
theorem searchKey_q_eq (t : List Char) :
    searchKey "q".data t = searchKey "Q".data t :=
  searchAt_congr matchKeyAt_q_eq t

/-- C9: because every fallback pattern is searched case-insensitively,
the perihelion (`q = ...`) and aphelion (`Q = ...`) patterns match the
same occurrences: the fallback result contains `perihelion` iff it
contains `aphelion`, and when both are present the values are equal. -/
theorem claim_C9_perihelion_aphelion_alias (t : List Char) :
    ((elemLookup "perihelion" (fallbackScan t)).isSome ↔
      (elemLookup "aphelion" (fallbackScan t)).isSome) ∧
    (∀ v w : Option Dec, elemLookup "perihelion" (fallbackScan t) = some v →
      elemLookup "aphelion" (fallbackScan t) = some w → v = w) := by
  have hq : elemLookup "aphelion" (fallbackScan t)
      = elemLookup "perihelion" (fallbackScan t) := by
    rw [fallback_lookup_perihelion, fallback_lookup_aphelion, searchKey_q_eq]
  constructor
  · rw [hq]
  · intro v w hv hw
    rw [hq, hv] at hw
    exact Option.some_inj.mp hw

/-- C9 witness: on `q = 1.5` both keys receive the value 1.5. -/
theorem claim_C9_witness :
    (some (⟨15, 1⟩ : Dec) : Option Dec) = some ⟨15, 1⟩ :=
  (claim_C9_perihelion_aphelion_alias "q = 1.5".data).2 (some ⟨15, 1⟩) (some ⟨15, 1⟩)
    (by decide) (by decide)

/-- C10: a successfully parsed tabular row always yields all nine
element keys; in particular `orbital_period` is present as a key, bound
to Python `None` when its field is the empty string, never omitted —
and every nonempty tabular-scan result has exactly the nine keys. -/
theorem claim_C10_tabular_keys_complete :
    (∀ (parts : List (List Char)) (e : Elements), parseRow parts = some e →
      e.map Prod.fst
        = ["eccentricity", "perihelion", "inclination", "longitude_ascending_node",
           "argument_perihelion", "mean_anomaly", "semimajor_axis", "aphelion",
           "orbital_period"] ∧
      (parts.get? 11 = some [] → elemLookup "orbital_period" e = some none)) ∧
    (∀ lines : List (List Char), tabularScan lines = [] ∨
      (tabularScan lines).map Prod.fst
        = ["eccentricity", "perihelion", "inclination", "longitude_ascending_node",
           "argument_perihelion", "mean_anomaly", "semimajor_axis", "aphelion",
           "orbital_period"]) := by
  constructor
  · intro parts e h
    obtain ⟨ec, qr, inc, om, w, ma, ax, ad, pr, h0, h1, h2, h3, h4, h7, h9, h10, h11, he⟩ :=
      parseRow_shape h
    subst he
    constructor
    · rfl
    · intro hget
      have hpr : pr = none := by
        unfold fnull at h11
        rw [hget] at h11
        simp [fieldNull] at h11
        exact h11.symm
      rw [hpr]
      simp [elemLookup]
  · intro lines
    refine tabularScan_inv
      (fun e => e = [] ∨ e.map Prod.fst
        = ["eccentricity", "perihelion", "inclination", "longitude_ascending_node",
           "argument_perihelion", "mean_anomaly", "semimajor_axis", "aphelion",
           "orbital_period"])
      (Or.inl rfl) (fun parts e hp => Or.inr ?_) lines
    obtain ⟨ec, qr, inc, om, w, ma, ax, ad, pr, _, _, _, _, _, _, _, _, _, he⟩ :=
      parseRow_shape hp
    subst he
    rfl

/-- C10 witness: a 12-field row whose period field is empty yields all
nine keys with `orbital_period` bound to `None`. -/
theorem claim_C10_witness :
    ([("eccentricity", some (⟨1, 0⟩ : Dec)), ("perihelion", some ⟨2, 0⟩),
      ("inclination", some ⟨3, 0⟩), ("longitude_ascending_node", some ⟨4, 0⟩),
      ("argument_perihelion", some ⟨5, 0⟩), ("mean_anomaly", some ⟨8, 0⟩),
      ("semimajor_axis", some ⟨10, 0⟩), ("aphelion", some ⟨11, 0⟩),
      ("orbital_period", none)] : Elements).map Prod.fst
      = ["eccentricity", "perihelion", "inclination", "longitude_ascending_node",
         "argument_perihelion", "mean_anomaly", "semimajor_axis", "aphelion",
         "orbital_period"] ∧
    elemLookup "orbital_period"
      [("eccentricity", some ⟨1, 0⟩), ("perihelion", some ⟨2, 0⟩),
       ("inclination", some ⟨3, 0⟩), ("longitude_ascending_node", some ⟨4, 0⟩),
       ("argument_perihelion", some ⟨5, 0⟩), ("mean_anomaly", some ⟨8, 0⟩),
       ("semimajor_axis", some ⟨10, 0⟩), ("aphelion", some ⟨11, 0⟩),
       ("orbital_period", none)] = some none := by
  have h := claim_C10_tabular_keys_complete.1
    ["1".data, "2".data, "3".data, "4".data, "5".data, "6".data, "7".data, "8".data,
     "9".data, "10".data, "11".data, []]
    [("eccentricity", some ⟨1, 0⟩), ("perihelion", some ⟨2, 0⟩),
     ("inclination", some ⟨3, 0⟩), ("longitude_ascending_node", some ⟨4, 0⟩),
     ("argument_perihelion", some ⟨5, 0⟩), ("mean_anomaly", some ⟨8, 0⟩),
     ("semimajor_axis", some ⟨10, 0⟩), ("aphelion", some ⟨11, 0⟩),
     ("orbital_period", none)]
    (by decide)
  exact ⟨h.1, h.2 (by decide)⟩
